import Mathlib

/-!
Verification development for the ai-excel-interviewer repository.

The definitions below are a shallow embedding of the interview core:

* `src/lib/types.ts` — the data model (categories, levels, sessions,
  questions, rubrics, evaluation results, skill scores);
* `src/services/evaluation/evaluation-engine.ts`
  (`IntelligentEvaluationEngine`) — the two-tier response evaluator and
  the skill-score aggregator;
* `src/services/questions/question-engine.ts`
  (`AdaptiveQuestionEngine`) — coverage tracking, category/difficulty
  selection and question drawing;
* `src/data/excel-questions.ts` — the static question catalog and the
  role weight tables;
* `src/lib/repositories/interview.ts` (`InterviewSessionRepository`) and
  `src/services/interview/interview-orchestrator.ts`
  (`InterviewOrchestrator`) — session lifecycle operations.

Numbers are modelled by `ℚ` (the JavaScript arithmetic used here is
exact on the decimal literals involved), timestamps by `Nat`, and the
persistence layer by an explicit list of sessions passed through every
repository operation.  External effects (the AI judge, `Math.random`,
`uuidv4`) are modelled as explicit functional parameters.
-/

-- Rational arithmetic must evaluate inside the kernel for the concrete
-- runs below; lift the reducibility seal on the four sealed operations.
unseal Rat.add Rat.mul Rat.inv Rat.sub

-- Results of fallible operations are compared concretely below.
deriving instance DecidableEq for Except

namespace ExcelInterviewer

/-- `ExcelSkillCategory` from `src/lib/types.ts`. -/
inductive ExcelSkillCategory where
  | basic_formulas
  | data_manipulation
  | pivot_tables
  | advanced_functions
  | data_visualization
  | macros_vba
  | data_modeling
deriving DecidableEq, Repr

/-- `ExcelLevel` / `DifficultyLevel` from `src/lib/types.ts` (both are the
string union `basic | intermediate | advanced`). -/
inductive SkillLevel where
  | basic
  | intermediate
  | advanced
deriving DecidableEq, Repr

/-- `InterviewStatus` from `src/lib/types.ts`. -/
inductive InterviewStatus where
  | active
  | paused
  | completed
deriving DecidableEq, Repr

/-- The `type` field of `ConversationTurn`. -/
inductive TurnType where
  | question
  | response
  | system
deriving DecidableEq, Repr

/-- `EvaluationCriterion` from `src/lib/types.ts`. -/
structure EvaluationCriterion where
  name : String
  weight : ℚ
  description : String
deriving DecidableEq, Repr

/-- `CommonMistake` from `src/lib/types.ts`. -/
structure CommonMistake where
  pattern : String
  deduction : ℚ
  feedback : String
deriving DecidableEq, Repr

/-- `PartialCreditRule` from `src/lib/types.ts`. -/
structure PartialCreditRule where
  condition : String
  creditPercentage : ℚ
  feedback : String
deriving DecidableEq, Repr

/-- `EvaluationRubric` from `src/lib/types.ts`. -/
structure EvaluationRubric where
  maxScore : ℚ
  criteria : List EvaluationCriterion
  commonMistakes : List CommonMistake
  partialCreditRules : List PartialCreditRule
deriving DecidableEq, Repr

/-- `FollowUpCondition` from `src/lib/types.ts`. -/
structure FollowUpCondition where
  trigger : String
  questionTemplate : String
deriving DecidableEq, Repr

/-- `Question` from `src/lib/types.ts`. -/
structure Question where
  id : String
  category : ExcelSkillCategory
  difficulty : SkillLevel
  text : String
  expectedAnswerPatterns : List String
  evaluationCriteria : EvaluationRubric
  followUpTriggers : List FollowUpCondition
deriving DecidableEq, Repr

/-- `ExpectedAnswer` from `src/lib/types.ts`: a catalog answer pattern
with its associated credit score and explanation. -/
structure ExpectedAnswer where
  pattern : String
  score : ℚ
  explanation : String
deriving DecidableEq, Repr

/-- One entry of the static catalog `excelQuestions` in
`src/data/excel-questions.ts`; its element type is
`Omit<ExcelQuestion, 'id' | 'usageCount' | 'averageScore'>`. -/
structure ExcelQuestionData where
  category : ExcelSkillCategory
  difficulty : SkillLevel
  text : String
  expectedAnswers : List ExpectedAnswer
  evaluationRubric : EvaluationRubric
  tags : List String
deriving DecidableEq, Repr

/-- A row of the external question table as returned by
`QuestionRepository.findByCategory` (`ExcelQuestion` in
`src/lib/types.ts`, with a persistent `id`). -/
structure DbExcelQuestion where
  id : String
  category : ExcelSkillCategory
  difficulty : SkillLevel
  text : String
  expectedAnswers : List ExpectedAnswer
  evaluationRubric : EvaluationRubric
  tags : List String
  usageCount : Nat
  averageScore : Option ℚ
deriving DecidableEq, Repr

/-- `PartialCredit` from `src/lib/types.ts`. -/
structure PartialCredit where
  criterion : String
  points : ℚ
  reasoning : String
deriving DecidableEq, Repr

/-- `EvaluationResult` from `src/lib/types.ts`. -/
structure EvaluationResult where
  questionId : String
  score : ℚ
  confidence : ℚ
  reasoning : String
  partialCredits : List PartialCredit
  suggestedFollowUp : Option String := none
deriving DecidableEq, Repr

/-- `SkillScores` from `src/lib/types.ts`. -/
structure SkillScores where
  overall : ℚ
  basicFormulas : ℚ
  dataManipulation : ℚ
  pivotTables : ℚ
  advancedFunctions : ℚ
  dataVisualization : ℚ
  macrosVBA : ℚ
  dataModeling : ℚ
deriving DecidableEq, Repr

/-- The parts of a conversation turn's loosely typed `metadata` bag that
the core reads or writes: the question engine reads
`turn.metadata?.question` and `InterviewOrchestrator.submitResponse`
writes `{ questionIndex: ... }`. -/
structure TurnMetadata where
  question : Option Question := none
  questionIndex : Option Nat := none
deriving DecidableEq, Repr

/-- `ConversationTurn` from `src/lib/types.ts` (timestamps as `Nat`). -/
structure ConversationTurn where
  id : String
  type : TurnType
  content : String
  timestamp : Nat
  metadata : Option TurnMetadata := none
deriving DecidableEq, Repr

/-- `InterviewSession` from `src/lib/types.ts`.  `evaluationResults` is
the related `EvaluationResult` rows that
`InterviewSessionRepository.findById` includes with the session. -/
structure InterviewSession where
  id : String
  candidateId : String
  roleLevel : SkillLevel
  status : InterviewStatus
  currentQuestionIndex : Nat
  conversationHistory : List ConversationTurn
  skillAssessment : SkillScores
  startTime : Nat
  endTime : Option Nat := none
  evaluationResults : List EvaluationResult := []
deriving DecidableEq, Repr

/-- `SkillCoverage` from `src/lib/types.ts`; the
`Record<ExcelSkillCategory, number>` is modelled as an association list
in the iteration order of the role weight table. -/
structure SkillCoverage where
  categories : List (ExcelSkillCategory × ℚ)
  overallCoverage : ℚ
  missingAreas : List ExcelSkillCategory
deriving DecidableEq, Repr

/-- `InterviewContext` from `src/lib/types.ts` (passed opaquely to the
AI tier; the rule tier never reads it). -/
structure InterviewContext where
  sessionId : String
  candidateLevel : SkillLevel
  previousQuestions : List Question := []
  conversationHistory : List ConversationTurn := []
deriving DecidableEq, Repr

/-! ### JavaScript string operations

The evaluator normalizes with `String.prototype.toLowerCase`,
`String.prototype.trim` and tests containment with
`String.prototype.includes`.  All strings in this code base are ASCII,
where `toLowerCase` is the character-wise ASCII lowering. -/

/-- `String.prototype.toLowerCase`, character-wise (ASCII). -/
def jsToLower (s : String) : String :=
  String.mk (s.data.map Char.toLower)

/-- `String.prototype.trim`: drop leading and trailing whitespace. -/
def jsTrim (s : String) : String :=
  String.mk (((s.data.dropWhile Char.isWhitespace).reverse.dropWhile
    Char.isWhitespace).reverse)

/-- Containment of one character list in another (the contiguous
substring test underlying `String.prototype.includes`). -/
def charsContain (haystack needle : List Char) : Bool :=
  match haystack with
  | [] => needle.isEmpty
  | _ :: rest => needle.isPrefixOf haystack || charsContain rest needle

/-- `haystack.includes(needle)`: substring containment. -/
def jsIncludes (haystack needle : String) : Bool :=
  charsContain haystack.data needle.data

/-! ### `IntelligentEvaluationEngine`
(`src/services/evaluation/evaluation-engine.ts`) -/

/-- The result built by `tryRuleBasedEvaluation` when the normalized
response contains an expected pattern: fixed score `95`, confidence
`9/10`, a single `Exact Match` partial credit. -/
def exactMatchResult (question : Question) (pat : String) : EvaluationResult :=
  { questionId := question.id
    score := 95
    confidence := 9/10
    reasoning := "Response matches expected pattern: " ++ pat
    partialCredits :=
      [{ criterion := "Exact Match"
         points := 95
         reasoning := "Response contains the expected formula or concept" }] }

/-- `IntelligentEvaluationEngine.tryRuleBasedEvaluation`: normalize the
response (lowercase, trim); return the fixed exact-match result on the
first expected pattern contained in it; otherwise collect common-mistake
deductions (as negative partial credits) and partial-credit-rule awards,
and, if any credits were collected, score with the clamped sum at
confidence `7/10`; otherwise return nothing. -/
def tryRuleBasedEvaluation (question : Question) (response : String) :
    Option EvaluationResult :=
  match question.expectedAnswerPatterns.find?
      (fun pat => jsIncludes (jsTrim (jsToLower response))
        (jsToLower pat)) with
  | some pat => some (exactMatchResult question pat)
  | none =>
    let mistakeCredits :=
      (question.evaluationCriteria.commonMistakes.filter
        (fun m => jsIncludes (jsTrim (jsToLower response))
          (jsToLower m.pattern))).map
        (fun m =>
          { criterion := "Common Mistake"
            points := -m.deduction
            reasoning := m.feedback : PartialCredit })
    let ruleCredits :=
      (question.evaluationCriteria.partialCreditRules.filter
        (fun r => jsIncludes (jsTrim (jsToLower response))
          (jsToLower r.condition))).map
        (fun r =>
          { criterion := "Partial Credit"
            points := question.evaluationCriteria.maxScore *
              r.creditPercentage / 100
            reasoning := r.feedback : PartialCredit })
    let partialCredits := mistakeCredits ++ ruleCredits
    if partialCredits.isEmpty then none
    else
      let totalPoints := partialCredits.foldl (fun s c => s + c.points) 0
      let score := max 0 (min 100 totalPoints)
      some { questionId := question.id
             score := score
             confidence := 7/10
             reasoning := "Rule-based evaluation with pattern matching"
             partialCredits := partialCredits }

/-- The external AI judgment capability
(`OpenAIClient.evaluateExcelResponse`), an opaque collaborator. -/
def AiJudge : Type :=
  Question → String → InterviewContext → EvaluationResult

/-- `IntelligentEvaluationEngine.evaluateResponse`: rule tier first; if
it produced a result with confidence above `8/10` return it, otherwise
call the AI tier, lift its confidence to the maximum of the two and
append the rule-tier partial credits.  The boolean records whether the
AI tier was invoked. -/
def evaluateResponse (aiEval : AiJudge) (question : Question)
    (response : String) (context : InterviewContext) :
    EvaluationResult × Bool :=
  match tryRuleBasedEvaluation question response with
  | some ruleBasedResult =>
    if ruleBasedResult.confidence > 8/10 then (ruleBasedResult, false)
    else
      let aiResult := aiEval question response context
      ({ aiResult with
          confidence := max aiResult.confidence ruleBasedResult.confidence
          partialCredits :=
            aiResult.partialCredits ++ ruleBasedResult.partialCredits },
        true)
  | none => (aiEval question response context, true)

/-- `IntelligentEvaluationEngine.extractCategoryFromEvaluation`: the
source returns the constant `ExcelSkillCategory.BASIC_FORMULAS`
(its comment: a real implementation would look up the question by ID;
for now a placeholder). -/
def extractCategoryFromEvaluation (_evaluation : EvaluationResult) :
    ExcelSkillCategory :=
  ExcelSkillCategory.basic_formulas

/-- `IntelligentEvaluationEngine.calculateCategoryAverage`: `0` for a
missing or empty score list, otherwise the arithmetic mean.  (An absent
`categoryScores[cat]` entry behaves as the empty list.) -/
def calculateCategoryAverage (scores : List ℚ) : ℚ :=
  if scores.isEmpty then 0
  else scores.foldl (fun sum score => sum + score) 0 / scores.length

/-- The scores grouped under a category by `calculateSkillScores`: the
source pushes `evaluation.score` onto
`categoryScores[extractCategoryFromEvaluation(evaluation)]`. -/
def scoresForCategory (evaluations : List EvaluationResult)
    (category : ExcelSkillCategory) : List ℚ :=
  (evaluations.filter
    (fun e => extractCategoryFromEvaluation e == category)).map
    (fun e => e.score)

/-- The hard-coded weight table inside
`IntelligentEvaluationEngine.calculateSkillScores`, paired with the
category averages, in the object's insertion order. -/
def overallWeightEntries (s : SkillScores) : List (ℚ × ℚ) :=
  [(s.basicFormulas, 2/10), (s.dataManipulation, 25/100),
   (s.pivotTables, 2/10), (s.advancedFunctions, 15/100),
   (s.dataVisualization, 1/10), (s.macrosVBA, 5/100),
   (s.dataModeling, 5/100)]

/-- `IntelligentEvaluationEngine.calculateSkillScores`: group the
evaluations by `extractCategoryFromEvaluation`, average per category,
then set `overall` to the weighted average over the categories whose
score is positive (`score > 0`), or `0` when no weight was counted. -/
def calculateSkillScores (evaluations : List EvaluationResult) :
    SkillScores :=
  let base : SkillScores :=
    { overall := 0
      basicFormulas := calculateCategoryAverage
        (scoresForCategory evaluations .basic_formulas)
      dataManipulation := calculateCategoryAverage
        (scoresForCategory evaluations .data_manipulation)
      pivotTables := calculateCategoryAverage
        (scoresForCategory evaluations .pivot_tables)
      advancedFunctions := calculateCategoryAverage
        (scoresForCategory evaluations .advanced_functions)
      dataVisualization := calculateCategoryAverage
        (scoresForCategory evaluations .data_visualization)
      macrosVBA := calculateCategoryAverage
        (scoresForCategory evaluations .macros_vba)
      dataModeling := calculateCategoryAverage
        (scoresForCategory evaluations .data_modeling) }
  let sums := (overallWeightEntries base).foldl
    (fun acc p => if p.1 > 0 then (acc.1 + p.1 * p.2, acc.2 + p.2) else acc)
    ((0 : ℚ), (0 : ℚ))
  { base with overall := if sums.2 > 0 then sums.1 / sums.2 else 0 }

/-! ### `InterviewSessionRepository`
(`src/lib/repositories/interview.ts`)

The database is modelled as the list of stored sessions; update
operations rewrite the row with the given id and fail (as the underlying
`prisma.update` does) when no such row exists. -/

/-- The session table. -/
abbrev SessionStore : Type := List InterviewSession

/-- `InterviewSessionRepository.findById`. -/
def findById (store : SessionStore) (sessionId : String) :
    Option InterviewSession :=
  store.find? (fun s => s.id == sessionId)

/-- Rewrite the row with the given id. -/
def updateById (store : SessionStore) (sessionId : String)
    (f : InterviewSession → InterviewSession) : SessionStore :=
  store.map (fun s => if s.id == sessionId then f s else s)

/-- `InterviewSessionRepository.update` restricted to the fields the
modelled operations set: applies the field changes when the row exists,
and fails like `prisma.interviewSession.update` when it does not. -/
def repoUpdate (store : SessionStore) (sessionId : String)
    (f : InterviewSession → InterviewSession) :
    Except String SessionStore :=
  if (findById store sessionId).isSome then
    Except.ok (updateById store sessionId f)
  else
    Except.error ("Record to update not found: " ++ sessionId)

/-- `InterviewSessionRepository.findActiveByCandidateId`: the first
session of the candidate whose status is `active` (paused and completed
sessions are not matched). -/
def findActiveByCandidateId (store : SessionStore) (candidateId : String) :
    Option InterviewSession :=
  store.find?
    (fun s => s.candidateId == candidateId && s.status == .active)

/-- The zeroed `skillAssessment` written by
`InterviewSessionRepository.create`. -/
def zeroSkillScores : SkillScores :=
  { overall := 0, basicFormulas := 0, dataManipulation := 0,
    pivotTables := 0, advancedFunctions := 0, dataVisualization := 0,
    macrosVBA := 0, dataModeling := 0 }

/-- The fresh row written by `InterviewSessionRepository.create`. -/
def newSessionRow (candidateId : String) (roleLevel : SkillLevel)
    (newId : String) (startTime : Nat) : InterviewSession :=
  { id := newId
    candidateId := candidateId
    roleLevel := roleLevel
    status := .active
    currentQuestionIndex := 0
    conversationHistory := []
    skillAssessment := zeroSkillScores
    startTime := startTime
    endTime := none
    evaluationResults := [] }

/-- `InterviewSessionRepository.create`: validate the required fields
(`validateRequired` rejects a falsy `candidateId`, i.e. the empty
string; `roleLevel` is an enum value and always truthy), require the
candidate row to exist (`candidates` is the candidate table's id
column), reject when `findActiveByCandidateId` finds an `active`
session, then insert the fresh `active` row.  Returns the created
session together with the new store. -/
def createSession (candidates : List String) (store : SessionStore)
    (candidateId : String) (roleLevel : SkillLevel) (newId : String)
    (startTime : Nat) :
    Except String (InterviewSession × SessionStore) :=
  if candidateId == "" then
    Except.error "Missing required fields: candidateId"
  else if !(candidates.contains candidateId) then
    Except.error ("Candidate with ID " ++ candidateId ++ " not found")
  else
    match findActiveByCandidateId store candidateId with
    | some activeSession =>
      Except.error ("Candidate already has an active interview session: "
        ++ activeSession.id)
    | none =>
      let session := newSessionRow candidateId roleLevel newId startTime
      Except.ok (session, store ++ [session])

/-- `InterviewSessionRepository.addConversationTurn`: look up the
session, push the turn onto its conversation history. -/
def addConversationTurn (store : SessionStore) (sessionId : String)
    (turn : ConversationTurn) : Except String SessionStore :=
  match findById store sessionId with
  | none =>
    Except.error ("Interview session " ++ sessionId ++ " not found")
  | some _ =>
    repoUpdate store sessionId
      (fun s => { s with
        conversationHistory := s.conversationHistory ++ [turn] })

/-- `InterviewSessionRepository.pauseSession`: unconditionally set the
status to `paused` (no check of the current status). -/
def pauseSession (store : SessionStore) (sessionId : String) :
    Except String SessionStore :=
  repoUpdate store sessionId (fun s => { s with status := .paused })

/-- `InterviewSessionRepository.resumeSession`: unconditionally set the
status to `active` (no check of the current status). -/
def resumeSession (store : SessionStore) (sessionId : String) :
    Except String SessionStore :=
  repoUpdate store sessionId (fun s => { s with status := .active })

/-- `InterviewSessionRepository.completeSession`: set status
`completed`, the end time, and the given final scores. -/
def completeSession (store : SessionStore) (sessionId : String)
    (finalScores : SkillScores) (endTime : Nat) :
    Except String SessionStore :=
  repoUpdate store sessionId
    (fun s => { s with
      status := .completed
      endTime := some endTime
      skillAssessment := finalScores })

/-! ### `InterviewOrchestrator`
(`src/services/interview/interview-orchestrator.ts`) -/

/-- The `response` turn appended by
`InterviewOrchestrator.submitResponse` (id `turn-${Date.now()}`,
metadata `{ questionIndex }`; `now` stands for `Date.now()`). -/
def responseTurn (questionIndex : Nat) (response : String) (now : Nat) :
    ConversationTurn :=
  { id := "turn-" ++ toString now
    type := .response
    content := response
    timestamp := now
    metadata := some { question := none, questionIndex := some questionIndex } }

/-- `InterviewOrchestrator.submitResponse`: look up the session (error
when absent), append a `response` conversation turn carrying the current
question index, then update `currentQuestionIndex` to the looked-up
index plus one.  No status check, no evaluation, no score update. -/
def submitResponse (store : SessionStore) (sessionId : String)
    (response : String) (now : Nat) : Except String SessionStore :=
  match findById store sessionId with
  | none =>
    Except.error ("Interview session " ++ sessionId ++ " not found")
  | some session =>
    match addConversationTurn store sessionId
        (responseTurn session.currentQuestionIndex response now) with
    | Except.error e => Except.error e
    | Except.ok store1 =>
      repoUpdate store1 sessionId
        (fun s => { s with
          currentQuestionIndex := session.currentQuestionIndex + 1 })

/-- The hard-coded `finalScores` object in
`InterviewOrchestrator.completeInterview` (the source marks it
"placeholder implementation"). -/
def finalScoresPlaceholder : SkillScores :=
  { overall := 75
    basicFormulas := 80
    dataManipulation := 70
    pivotTables := 75
    advancedFunctions := 70
    dataVisualization := 80
    macrosVBA := 60
    dataModeling := 65 }

/-- `InterviewOrchestrator.completeInterview`: look up the session
(error when absent) and complete it with the fixed placeholder scores,
independent of the session's history and evaluations. -/
def completeInterview (store : SessionStore) (sessionId : String)
    (now : Nat) : Except String SessionStore :=
  match findById store sessionId with
  | none =>
    Except.error ("Interview session " ++ sessionId ++ " not found")
  | some _ => completeSession store sessionId finalScoresPlaceholder now

/-! ### The static question catalog
(`excelQuestions` in `src/data/excel-questions.ts`) -/

/-- A single-quote character, used inside two catalog question texts. -/
def apos : String := String.mk [Char.ofNat 39]

/-- Catalog entry: basic formulas / basic, SUM over a range. -/
def catalogSum : ExcelQuestionData :=
  { category := .basic_formulas
    difficulty := .basic
    text := "How would you calculate the sum of values in cells A1 through A10? Please explain the formula you would use."
    expectedAnswers :=
      [{ pattern := "=SUM(A1:A10)", score := 100
         explanation := "Correct SUM formula with proper range notation" },
       { pattern := "SUM(A1:A10)", score := 80
         explanation := "Correct function but missing equals sign" },
       { pattern := "=A1+A2+A3+A4+A5+A6+A7+A8+A9+A10", score := 60
         explanation := "Mathematically correct but inefficient approach" }]
    evaluationRubric :=
      { maxScore := 100
        criteria :=
          [{ name := "Formula Syntax", weight := 4/10
             description := "Correct use of equals sign and function syntax" },
           { name := "Range Notation", weight := 4/10
             description := "Proper use of colon notation for ranges" },
           { name := "Function Knowledge", weight := 2/10
             description := "Understanding of SUM function purpose" }]
        commonMistakes :=
          [{ pattern := "missing equals sign", deduction := 20
             feedback := "Remember to start formulas with an equals sign (=)" },
           { pattern := "incorrect range syntax", deduction := 30
             feedback := "Use colon (:) to specify ranges, e.g., A1:A10" }]
        partialCreditRules :=
          [{ condition := "mentions SUM function", creditPercentage := 50
             feedback := "Good knowledge of SUM function, but check syntax" }] }
    tags := ["formulas", "basic", "sum", "ranges"] }

/-- Catalog entry: basic formulas / basic, AVERAGE. -/
def catalogAverage : ExcelQuestionData :=
  { category := .basic_formulas
    difficulty := .basic
    text := "If you want to find the average of numbers in cells B1 to B20, what formula would you use?"
    expectedAnswers :=
      [{ pattern := "=AVERAGE(B1:B20)", score := 100
         explanation := "Perfect AVERAGE formula" },
       { pattern := "=SUM(B1:B20)/20", score := 85
         explanation := "Mathematically correct alternative approach" }]
    evaluationRubric :=
      { maxScore := 100
        criteria :=
          [{ name := "Function Selection", weight := 5/10
             description := "Choosing appropriate function for averaging" },
           { name := "Syntax Accuracy", weight := 5/10
             description := "Correct formula syntax and range specification" }]
        commonMistakes :=
          [{ pattern := "AVG instead of AVERAGE", deduction := 15
             feedback := "The function is AVERAGE, not AVG in Excel" }]
        partialCreditRules := [] }
    tags := ["formulas", "basic", "average", "statistics"] }

/-- Catalog entry: data manipulation / intermediate, lookup functions. -/
def catalogLookup : ExcelQuestionData :=
  { category := .data_manipulation
    difficulty := .intermediate
    text := "You have a list of employee names in column A and their salaries in column B. How would you find the salary of a specific employee, say "
      ++ apos ++ "John Smith" ++ apos ++ ", using a lookup function?"
    expectedAnswers :=
      [{ pattern := "=VLOOKUP(\"John Smith\",A:B,2,FALSE)", score := 100
         explanation := "Perfect VLOOKUP with exact match" },
       { pattern := "=INDEX(B:B,MATCH(\"John Smith\",A:A,0))", score := 100
         explanation := "Excellent INDEX-MATCH combination" },
       { pattern := "=XLOOKUP(\"John Smith\",A:A,B:B)", score := 100
         explanation := "Modern XLOOKUP function (Excel 365)" }]
    evaluationRubric :=
      { maxScore := 100
        criteria :=
          [{ name := "Function Choice", weight := 4/10
             description := "Selecting appropriate lookup function" },
           { name := "Parameters", weight := 4/10
             description := "Correct function parameters and syntax" },
           { name := "Match Type", weight := 2/10
             description := "Understanding of exact vs approximate match" }]
        commonMistakes :=
          [{ pattern := "missing FALSE parameter", deduction := 25
             feedback := "For exact matches, use FALSE as the last parameter in VLOOKUP" },
           { pattern := "wrong column index", deduction := 30
             feedback := "Column index should be 2 for the second column (salary)" }]
        partialCreditRules :=
          [{ condition := "mentions VLOOKUP concept", creditPercentage := 60
             feedback := "Good understanding of lookup concept, refine the syntax" }] }
    tags := ["lookup", "vlookup", "data-retrieval", "intermediate"] }

/-- Catalog entry: pivot tables / intermediate. -/
def catalogPivot : ExcelQuestionData :=
  { category := .pivot_tables
    difficulty := .intermediate
    text := "You have sales data with columns for Date, Salesperson, Product, and Amount. How would you create a pivot table to show total sales by salesperson and product?"
    expectedAnswers :=
      [{ pattern := "drag salesperson to rows, product to columns, amount to values"
         score := 100
         explanation := "Perfect pivot table structure understanding" },
       { pattern := "salesperson in row area, product in column area, sum of amount in data area"
         score := 95
         explanation := "Correct understanding with different terminology" }]
    evaluationRubric :=
      { maxScore := 100
        criteria :=
          [{ name := "Field Placement", weight := 5/10
             description := "Correct placement of fields in pivot table areas" },
           { name := "Aggregation Understanding", weight := 3/10
             description := "Understanding of sum aggregation for amounts" },
           { name := "Structure Logic", weight := 2/10
             description := "Logical organization of data dimensions" }]
        commonMistakes :=
          [{ pattern := "amount in wrong area", deduction := 40
             feedback := "Amount should go in the Values area for aggregation" }]
        partialCreditRules :=
          [{ condition := "mentions pivot table creation", creditPercentage := 40
             feedback := "Good awareness of pivot tables, focus on field placement" }] }
    tags := ["pivot-tables", "data-analysis", "aggregation", "intermediate"] }

/-- Catalog entry: advanced functions / advanced, COUNTIFS. -/
def catalogCountifs : ExcelQuestionData :=
  { category := .advanced_functions
    difficulty := .advanced
    text := "How would you create a formula that counts the number of cells in column A that contain text starting with "
      ++ apos ++ "Project" ++ apos
      ++ " and have a corresponding value in column B greater than 1000?"
    expectedAnswers :=
      [{ pattern := "=COUNTIFS(A:A,\"Project*\",B:B,\">1000\")", score := 100
         explanation := "Perfect COUNTIFS with multiple criteria" },
       { pattern := "=SUMPRODUCT((LEFT(A:A,7)=\"Project\")*(B:B>1000))", score := 95
         explanation := "Advanced SUMPRODUCT approach" }]
    evaluationRubric :=
      { maxScore := 100
        criteria :=
          [{ name := "Function Selection", weight := 4/10
             description := "Choosing appropriate multi-criteria function" },
           { name := "Criteria Syntax", weight := 4/10
             description := "Correct syntax for text and numeric criteria" },
           { name := "Wildcard Usage", weight := 2/10
             description := "Understanding of wildcard characters" }]
        commonMistakes :=
          [{ pattern := "using COUNTIF instead of COUNTIFS", deduction := 50
             feedback := "COUNTIFS is needed for multiple criteria, not COUNTIF" }]
        partialCreditRules :=
          [{ condition := "mentions multiple criteria", creditPercentage := 60
             feedback := "Good understanding of the requirement for multiple conditions" }] }
    tags := ["advanced-functions", "countifs", "criteria", "wildcards"] }

/-- Catalog entry: data visualization / intermediate, trend charts. -/
def catalogChart : ExcelQuestionData :=
  { category := .data_visualization
    difficulty := .intermediate
    text := "You have monthly sales data for the past year. What type of chart would be most appropriate to show the trend over time, and how would you create it?"
    expectedAnswers :=
      [{ pattern := "line chart", score := 100
         explanation := "Line charts are perfect for showing trends over time" },
       { pattern := "area chart", score := 85
         explanation := "Area charts can also show trends effectively" },
       { pattern := "column chart", score := 70
         explanation := "Column charts work but are less ideal for time series" }]
    evaluationRubric :=
      { maxScore := 100
        criteria :=
          [{ name := "Chart Type Selection", weight := 6/10
             description := "Choosing appropriate chart for time series data" },
           { name := "Creation Process", weight := 4/10
             description := "Understanding of chart creation steps" }]
        commonMistakes :=
          [{ pattern := "pie chart", deduction := 60
             feedback := "Pie charts are not suitable for time series data" }]
        partialCreditRules := [] }
    tags := ["charts", "visualization", "trends", "time-series"] }

/-- Catalog entry: macros VBA / advanced. -/
def catalogMacro : ExcelQuestionData :=
  { category := .macros_vba
    difficulty := .advanced
    text := "How would you create a simple macro to automatically format a selected range of cells with bold text and yellow background?"
    expectedAnswers :=
      [{ pattern := "Selection.Font.Bold = True; Selection.Interior.Color = RGB(255, 255, 0)"
         score := 100
         explanation := "Correct VBA syntax for formatting" },
       { pattern := "record macro with formatting actions", score := 80
         explanation := "Good understanding of macro recorder approach" }]
    evaluationRubric :=
      { maxScore := 100
        criteria :=
          [{ name := "VBA Syntax", weight := 5/10
             description := "Correct VBA code syntax" },
           { name := "Object Model", weight := 3/10
             description := "Understanding of Excel object model" },
           { name := "Approach", weight := 2/10
             description := "Logical approach to automation" }]
        commonMistakes :=
          [{ pattern := "incorrect object references", deduction := 40
             feedback := "Use Selection object to reference selected cells" }]
        partialCreditRules :=
          [{ condition := "mentions macro recorder", creditPercentage := 50
             feedback := "Macro recorder is a good starting point for learning VBA" }] }
    tags := ["macros", "vba", "automation", "advanced"] }

/-- Catalog entry: data modeling / advanced, PMT. -/
def catalogPmt : ExcelQuestionData :=
  { category := .data_modeling
    difficulty := .advanced
    text := "You need to create a financial model that calculates monthly loan payments. What function would you use, and what parameters does it require?"
    expectedAnswers :=
      [{ pattern := "=PMT(rate/12, nper*12, pv)", score := 100
         explanation := "Perfect PMT function with proper parameter adjustment" },
       { pattern := "PMT function with rate, periods, present value", score := 85
         explanation := "Good understanding of PMT function components" }]
    evaluationRubric :=
      { maxScore := 100
        criteria :=
          [{ name := "Function Knowledge", weight := 4/10
             description := "Knowledge of PMT function" },
           { name := "Parameter Understanding", weight := 4/10
             description := "Understanding of rate, nper, pv parameters" },
           { name := "Period Adjustment", weight := 2/10
             description := "Adjusting annual rate to monthly" }]
        commonMistakes :=
          [{ pattern := "not adjusting rate for monthly", deduction := 30
             feedback := "Remember to divide annual rate by 12 for monthly payments" }]
        partialCreditRules := [] }
    tags := ["financial-modeling", "pmt", "loans", "advanced"] }

/-- `excelQuestions`: the eight catalog entries in source order. -/
def excelQuestionsData : List ExcelQuestionData :=
  [catalogSum, catalogAverage, catalogLookup, catalogPivot,
   catalogCountifs, catalogChart, catalogMacro, catalogPmt]

/-- `roleQuestionWeights` from `src/data/excel-questions.ts`, per role
level, as an association list in the object's insertion order. -/
def roleQuestionWeights (level : SkillLevel) :
    List (ExcelSkillCategory × ℚ) :=
  match level with
  | .basic =>
    [(.basic_formulas, 4/10), (.data_manipulation, 3/10),
     (.data_visualization, 2/10), (.pivot_tables, 1/10),
     (.advanced_functions, 0), (.macros_vba, 0),
     (.data_modeling, 0)]
  | .intermediate =>
    [(.basic_formulas, 2/10), (.data_manipulation, 3/10),
     (.pivot_tables, 25/100), (.data_visualization, 15/100),
     (.advanced_functions, 1/10), (.macros_vba, 0),
     (.data_modeling, 0)]
  | .advanced =>
    [(.basic_formulas, 1/10), (.data_manipulation, 2/10),
     (.pivot_tables, 2/10), (.advanced_functions, 25/100),
     (.data_visualization, 1/10), (.macros_vba, 1/10),
     (.data_modeling, 5/100)]

/-! ### `AdaptiveQuestionEngine`
(`src/services/questions/question-engine.ts`) -/

/-- `AdaptiveQuestionEngine.getAskedQuestions`: the `question` turns of
the conversation history whose metadata carries a question
(`turn.metadata?.question`, filtered for truthiness). -/
def getAskedQuestions (session : InterviewSession) : List Question :=
  (session.conversationHistory.filter
    (fun turn => turn.type == .question)).filterMap
    (fun turn => turn.metadata.bind (fun m => m.question))

/-- `AdaptiveQuestionEngine.getRecentQuestions`: `slice(-count)`, the
last `count` asked questions (all of them when fewer). -/
def getRecentQuestions (session : InterviewSession) (count : Nat) :
    List Question :=
  let askedQuestions := getAskedQuestions session
  askedQuestions.drop (askedQuestions.length - count)

/-- `AdaptiveQuestionEngine.getQuestionScores`: the source maps every
question to `Math.random() * 100` (its comment says the scores would
typically come from the evaluation results; a placeholder).  The random
stream is modelled by `randomDraw`, one draw per question. -/
def getQuestionScores (randomDraw : Nat → ℚ) (questions : List Question) :
    List ℚ :=
  (List.range questions.length).map randomDraw

/-- `AdaptiveQuestionEngine.adaptDifficulty`: filter the last three
asked questions down to the target category; `basic` when none remain;
otherwise average the (randomly drawn) scores and map `≥ 80` to
`advanced`, `≥ 60` to `intermediate`, else `basic`. -/
def adaptDifficulty (randomDraw : Nat → ℚ) (session : InterviewSession)
    (category : ExcelSkillCategory) : SkillLevel :=
  let recentQuestions := getRecentQuestions session 3
  let categoryQuestions :=
    recentQuestions.filter (fun q => q.category == category)
  if categoryQuestions.isEmpty then .basic
  else
    let scores := getQuestionScores randomDraw categoryQuestions
    let avgScore : ℚ :=
      if scores.length > 0 then
        scores.foldl (fun a b => a + b) 0 / scores.length
      else 50
    if avgScore ≥ 80 then .advanced
    else if avgScore ≥ 60 then .intermediate
    else .basic

/-- `Math.ceil` on an exact rational: `⌈q⌉` via floor division. -/
def ratCeilToNat (q : ℚ) : Nat :=
  (Int.fdiv (q.num + q.den - 1) q.den).toNat

/-- `AdaptiveQuestionEngine.getExpectedQuestionsForCategory`:
`Math.ceil(15 * (roleQuestionWeights[roleLevel][category] || 0))`. -/
def getExpectedQuestionsForCategory (category : ExcelSkillCategory)
    (roleLevel : SkillLevel) : Nat :=
  let weight : ℚ :=
    (((roleQuestionWeights roleLevel).find?
      (fun p => p.1 == category)).map (fun p => p.2)).getD 0
  ratCeilToNat (15 * weight)

/-- The per-category ratio `askedInCategory / expected` computed inside
`validateQuestionCoverage` (`0` when `expected == 0`), before the
`Math.min(coverage, 1.0)` clamp. -/
def categoryCoverageRaw (session : InterviewSession)
    (category : ExcelSkillCategory) : ℚ :=
  let categoryQuestions :=
    (getAskedQuestions session).filter (fun q => q.category == category)
  let expectedQuestions :=
    getExpectedQuestionsForCategory category session.roleLevel
  if expectedQuestions > 0 then
    (categoryQuestions.length : ℚ) / (expectedQuestions : ℚ)
  else 0

/-- `AdaptiveQuestionEngine.validateQuestionCoverage`: the source's
single `forEach` over the role weight entries accumulates three
independent results, decomposed here into three passes.  Each category
is reported with the clamped `min(ratio, 1.0)`; `overallCoverage`
divides the sum of `ratio * weight` (the ratio UNCLAMPED) by the sum of
the weights; the missing areas are the categories reported below
`5/10`. -/
def validateQuestionCoverage (session : InterviewSession) :
    SkillCoverage :=
  let roleWeights := roleQuestionWeights session.roleLevel
  let categoryCoverage :=
    roleWeights.map
      (fun e => (e.1, min (categoryCoverageRaw session e.1) 1))
  let totalWeight :=
    (roleWeights.map (fun e => e.2)).foldl (fun a b => a + b) (0 : ℚ)
  let coveredWeight :=
    (roleWeights.map
      (fun e => categoryCoverageRaw session e.1 * e.2)).foldl
      (fun a b => a + b) (0 : ℚ)
  let overallCoverage :=
    if totalWeight > 0 then coveredWeight / totalWeight else 0
  { categories := categoryCoverage
    overallCoverage := overallCoverage
    missingAreas :=
      (categoryCoverage.filter (fun p => p.2 < 5/10)).map (fun p => p.1) }

/-- `AdaptiveQuestionEngine.selectNextCategory`: priority
`weight * (1 - (coverage.categories[category] || 0))`; a stable
descending sort followed by taking the head selects the first entry (in
table order) of maximal priority, modelled by a fold that replaces the
best only on a strictly greater priority. -/
def selectNextCategory (session : InterviewSession)
    (coverage : SkillCoverage) : ExcelSkillCategory :=
  let roleWeights := roleQuestionWeights session.roleLevel
  let categoryScores :=
    roleWeights.map (fun e =>
      let currentCoverage :=
        ((coverage.categories.find? (fun p => p.1 == e.1)).map
          (fun p => p.2)).getD 0
      (e.1, e.2 * (1 - currentCoverage)))
  (categoryScores.foldl
    (fun best p => if p.2 > best.2 then p else best)
    (categoryScores.headD (.basic_formulas, 0))).1

/-- `AdaptiveQuestionEngine.mapExcelQuestionToQuestion`: a static
catalog entry becomes a `Question` with a FRESH `uuidv4()` id (passed in
as `freshId`), the answer patterns stripped of their scores, and no
follow-up triggers. -/
def mapExcelQuestionToQuestion (freshId : String)
    (excelQuestion : ExcelQuestionData) : Question :=
  { id := freshId
    category := excelQuestion.category
    difficulty := excelQuestion.difficulty
    text := excelQuestion.text
    expectedAnswerPatterns :=
      excelQuestion.expectedAnswers.map (fun a => a.pattern)
    evaluationCriteria := excelQuestion.evaluationRubric
    followUpTriggers := [] }

/-- `AdaptiveQuestionEngine.convertDbQuestionToQuestion`: a database
question keeps its persistent id. -/
def convertDbQuestionToQuestion (dbQuestion : DbExcelQuestion) :
    Question :=
  { id := dbQuestion.id
    category := dbQuestion.category
    difficulty := dbQuestion.difficulty
    text := dbQuestion.text
    expectedAnswerPatterns :=
      dbQuestion.expectedAnswers.map (fun a => a.pattern)
    evaluationCriteria := dbQuestion.evaluationRubric
    followUpTriggers := [] }

/-- Map a list of catalog entries through
`mapExcelQuestionToQuestion`, drawing one fresh id per entry from the
`uuid` supply. -/
def mapWithFreshIds (uuid : Nat → String)
    (entries : List ExcelQuestionData) : List Question :=
  entries.enum.map (fun p => mapExcelQuestionToQuestion (uuid p.1) p.2)

/-- The external collaborators of the question engine: the question
table (`QuestionRepository`), the `uuidv4` supply and the `Math.random`
stream (one value used for score draws, one for the selection index). -/
structure EngineEnv where
  dbQuestions : List DbExcelQuestion
  uuid : Nat → String
  randomDraw : Nat → ℚ
  randIndexDraw : Nat

/-- `AdaptiveQuestionEngine.getAvailableQuestions`: database questions
of the category, filtered by difficulty and by the asked ids, win when
non-empty; otherwise the static catalog entries of the
(category, difficulty) pair, remapped with fresh ids, filtered by the
asked ids. -/
def getAvailableQuestions (env : EngineEnv)
    (session : InterviewSession) (category : ExcelSkillCategory)
    (difficulty : SkillLevel) : List Question :=
  let askedQuestionIds := (getAskedQuestions session).map (fun q => q.id)
  let dbQuestions :=
    env.dbQuestions.filter (fun q => q.category == category)
  let availableDbQuestions :=
    ((dbQuestions.filter (fun q => q.difficulty == difficulty)).filter
      (fun q => !(askedQuestionIds.contains q.id))).map
      convertDbQuestionToQuestion
  if !availableDbQuestions.isEmpty then availableDbQuestions
  else
    let staticQuestions :=
      mapWithFreshIds env.uuid
        (excelQuestionsData.filter
          (fun q => q.category == category && q.difficulty == difficulty))
    staticQuestions.filter (fun q => !(askedQuestionIds.contains q.id))

/-- `AdaptiveQuestionEngine.getFallbackQuestions`: ALL static catalog
entries (the database is not consulted), remapped with fresh ids,
filtered by the asked ids. -/
def getFallbackQuestions (env : EngineEnv)
    (session : InterviewSession) : List Question :=
  let askedQuestionIds := (getAskedQuestions session).map (fun q => q.id)
  (mapWithFreshIds env.uuid excelQuestionsData).filter
    (fun q => !(askedQuestionIds.contains q.id))

/-- `AdaptiveQuestionEngine.selectQuestion`: uniform random draw,
`questions[Math.floor(Math.random() * questions.length)]`, modelled by
the supplied index taken modulo the length; throws on an empty list. -/
def selectQuestion (questions : List Question) (r : Nat) :
    Except String Question :=
  match questions with
  | [] => Except.error "No questions available for selection"
  | q :: rest =>
    Except.ok ((q :: rest).getD (r % (q :: rest).length) q)

/-- `AdaptiveQuestionEngine.getNextQuestion`: coverage, category,
difficulty, then draw from the available questions; when none, draw
from the fallback pool; when that is also empty, fail with
`No more questions available`. -/
def getNextQuestion (env : EngineEnv) (session : InterviewSession) :
    Except String Question :=
  let coverage := validateQuestionCoverage session
  let nextCategory := selectNextCategory session coverage
  let difficulty := adaptDifficulty env.randomDraw session nextCategory
  let availableQuestions :=
    getAvailableQuestions env session nextCategory difficulty
  if availableQuestions.isEmpty then
    let fallbackQuestions := getFallbackQuestions env session
    if fallbackQuestions.isEmpty then
      Except.error "No more questions available"
    else selectQuestion fallbackQuestions env.randIndexDraw
  else selectQuestion availableQuestions env.randIndexDraw

/-! ### Concrete test fixtures -/

/-- A stubbed AI-tier verdict, recognizable in results. -/
def aiStubResult : EvaluationResult :=
  { questionId := "ai-stub"
    score := 40
    confidence := 6/10
    reasoning := "AI judgment"
    partialCredits := [] }

/-- A stubbed AI judge returning `aiStubResult` for every input. -/
def aiStub : AiJudge := fun _ _ _ => aiStubResult

/-- A minimal interview context for evaluator calls. -/
def demoContext : InterviewContext :=
  { sessionId := "s1", candidateLevel := .intermediate }

/-- The first catalog question as delivered to a candidate (mapped with
some fresh id). -/
def sumQuestion : Question := mapExcelQuestionToQuestion "q-sum" catalogSum

/-- A `question` conversation turn carrying the delivered question in
its metadata, as the question engine expects to find it. -/
def questionTurn (q : Question) (ts : Nat) : ConversationTurn :=
  { id := "qt-" ++ toString ts
    type := .question
    content := q.text
    timestamp := ts
    metadata := some { question := some q, questionIndex := none } }

/-- A paused session with one delivered question. -/
def pausedSession : InterviewSession :=
  { id := "s1"
    candidateId := "c1"
    roleLevel := .intermediate
    status := .paused
    currentQuestionIndex := 0
    conversationHistory := [questionTurn sumQuestion 1]
    skillAssessment := zeroSkillScores
    startTime := 0 }

/-- A store holding only `pausedSession`. -/
def pausedStore : SessionStore := [pausedSession]

/-- A basic-role session with thirty delivered basic-formulas
questions: far more than the six expected for the category. -/
def overAskedSession : InterviewSession :=
  { id := "s9"
    candidateId := "c9"
    roleLevel := .basic
    status := .active
    currentQuestionIndex := 30
    conversationHistory := List.replicate 30 (questionTurn sumQuestion 1)
    skillAssessment := zeroSkillScores
    startTime := 0 }

/-- A session in which every one of the eight catalog questions has
already been delivered (each under the fresh id it received when it was
drawn). -/
def allAskedSession : InterviewSession :=
  { id := "s6"
    candidateId := "c6"
    roleLevel := .basic
    status := .active
    currentQuestionIndex := 8
    conversationHistory :=
      excelQuestionsData.enum.map (fun p =>
        questionTurn
          (mapExcelQuestionToQuestion ("asked-" ++ toString p.1) p.2)
          p.1)
    skillAssessment := zeroSkillScores
    startTime := 0 }

/-- An engine environment with an empty question table, a fresh-id
supply disjoint from every `asked-` id, and fixed random draws. -/
def demoEnv : EngineEnv :=
  { dbQuestions := []
    uuid := fun _ => "fresh-id"
    randomDraw := fun _ => 50
    randIndexDraw := 0 }

/-- An active session with one delivered (unanswered) question. -/
def activeSession : InterviewSession :=
  { id := "sA"
    candidateId := "cA"
    roleLevel := .intermediate
    status := .active
    currentQuestionIndex := 0
    conversationHistory := [questionTurn sumQuestion 1]
    skillAssessment := zeroSkillScores
    startTime := 0 }

/-- A store holding only `activeSession`. -/
def activeStore : SessionStore := [activeSession]

/-- The pivot-tables catalog question as delivered to a candidate. -/
def pivotQuestion : Question :=
  mapExcelQuestionToQuestion "q-pivot" catalogPivot

/-- An evaluation of an answer to `pivotQuestion`, scored 80. -/
def pivotEvaluation : EvaluationResult :=
  { questionId := "q-pivot"
    score := 80
    confidence := 9/10
    reasoning := "correct pivot answer"
    partialCredits := [] }

/-- A session whose one asked basic-formulas question has a recorded
evaluation of score 90 in the evaluation history. -/
def scoredSession : InterviewSession :=
  { id := "s5"
    candidateId := "c5"
    roleLevel := .intermediate
    status := .active
    currentQuestionIndex := 1
    conversationHistory :=
      [questionTurn sumQuestion 1, responseTurn 0 "=SUM(A1:A10)" 2]
    skillAssessment := zeroSkillScores
    startTime := 0
    evaluationResults :=
      [{ questionId := "q-sum"
         score := 90
         confidence := 9/10
         reasoning := "exact match"
         partialCredits := [] }] }

/-! ### Helper lemmas -/

/-- Updating the row with a given id commutes with looking it up, as
long as the update preserves the id. -/
theorem findById_updateById (store : SessionStore) (sid : String)
    (f : InterviewSession → InterviewSession)
    (hid : ∀ s, (f s).id = s.id) :
    findById (updateById store sid f) sid = (findById store sid).map f := by
  induction store with
  | nil => rfl
  | cons s rest ih =>
    by_cases h : (s.id == sid) = true
    · unfold findById updateById
      simp only [List.map_cons, List.find?_cons]
      have hfid : ((f s).id == sid) = true := by
        rw [hid s]; exact h
      rw [if_pos h, hfid, h]
      rfl
    · have hb : (s.id == sid) = false := Bool.eq_false_iff.mpr h
      unfold findById updateById
      simp only [List.map_cons, List.find?_cons, hb, Bool.false_eq_true,
        if_false]
      exact ih

/-- A nonempty question list always yields a selected question. -/
theorem selectQuestion_isOk (questions : List Question) (r : Nat)
    (h : questions ≠ []) : ∃ q, selectQuestion questions r = Except.ok q := by
  cases questions with
  | nil => exact absurd rfl h
  | cons q rest => exact ⟨_, rfl⟩

/-- Left folds of addition over nonnegative rationals stay
nonnegative. -/
theorem foldl_add_nonneg (l : List ℚ) (init : ℚ) (h0 : 0 ≤ init)
    (h : ∀ x ∈ l, 0 ≤ x) : 0 ≤ l.foldl (fun a b => a + b) init := by
  induction l generalizing init with
  | nil => exact h0
  | cons x rest ih =>
    exact ih (init + x)
      (add_nonneg h0 (h x (List.mem_cons_self x rest)))
      (fun y hy => h y (List.mem_cons_of_mem x hy))

/-- Every weight in every role weight table is nonnegative. -/
theorem roleQuestionWeights_nonneg (level : SkillLevel) :
    ∀ p ∈ roleQuestionWeights level, 0 ≤ p.2 := by
  cases level <;> decide

/-- A string other than `""` lowers to a nonempty character list, so the
empty string does not contain it. -/
theorem jsIncludes_empty_of_ne (p : String) (h : p ≠ "") :
    jsIncludes "" (jsToLower p) = false := by
  obtain ⟨l⟩ := p
  cases l with
  | nil => exact absurd rfl h
  | cons c cs => rfl

/-- Characterization of `submitResponse` on a stored session: it
succeeds for EVERY stored session (no status check) and the stored row
changes exactly by the appended `response` turn and the incremented
question index. -/
theorem submitResponse_spec (store : SessionStore)
    (sid response : String) (now : Nat) (session : InterviewSession)
    (h : findById store sid = some session) :
    ∃ store2, submitResponse store sid response now = Except.ok store2 ∧
      findById store2 sid = some { session with
        conversationHistory := session.conversationHistory ++
          [responseTurn session.currentQuestionIndex response now]
        currentQuestionIndex := session.currentQuestionIndex + 1 } := by
  have hpush : addConversationTurn store sid
      (responseTurn session.currentQuestionIndex response now) =
      Except.ok (updateById store sid (fun s => { s with
        conversationHistory := s.conversationHistory ++
          [responseTurn session.currentQuestionIndex response now] })) := by
    unfold addConversationTurn repoUpdate
    rw [h]
    simp
  have hfind1 : findById (updateById store sid (fun s => { s with
      conversationHistory := s.conversationHistory ++
        [responseTurn session.currentQuestionIndex response now] })) sid =
      some { session with
        conversationHistory := session.conversationHistory ++
          [responseTurn session.currentQuestionIndex response now] } := by
    have hcomm := findById_updateById store sid
      (fun s => { s with
        conversationHistory := s.conversationHistory ++
          [responseTurn session.currentQuestionIndex response now] })
      (fun _ => rfl)
    rw [hcomm, h]
    rfl
  unfold submitResponse
  rw [h]
  simp only [hpush]
  unfold repoUpdate
  rw [hfind1]
  simp only [Option.isSome_some, if_true]
  refine ⟨_, rfl, ?_⟩
  have hcomm2 := findById_updateById
    (updateById store sid (fun s => { s with
      conversationHistory := s.conversationHistory ++
        [responseTurn session.currentQuestionIndex response now] }))
    sid
    (fun s => { s with
      currentQuestionIndex := session.currentQuestionIndex + 1 })
    (fun _ => rfl)
  rw [hcomm2, hfind1]
  rfl

/-- The store produced by submitting `"=SUM(A1:A10)"` to the active
session at time 99. -/
def submittedStoreA : SessionStore :=
  [{ activeSession with
      conversationHistory := activeSession.conversationHistory ++
        [responseTurn 0 "=SUM(A1:A10)" 99]
      currentQuestionIndex := 1 }]

/-! ### Claims -/

/-- C1, counterexample: on an `active` session with one delivered
question, `submitResponse` succeeds but leaves the evaluation history
EMPTY and the skill scores unchanged at zero — it never invokes the
Hybrid Evaluator, appends no `EvaluationResult`, and recomputes
nothing, contrary to the claim; only the response turn and the index
advance happen. -/
theorem submitResponse_no_evaluation_counterexample :
    activeSession.status = InterviewStatus.active ∧
    submitResponse activeStore "sA" "=SUM(A1:A10)" 99 =
      Except.ok submittedStoreA ∧
    (findById submittedStoreA "sA").map
      (fun s => s.evaluationResults) = some [] ∧
    (findById submittedStoreA "sA").map
      (fun s => s.skillAssessment) = some zeroSkillScores ∧
    (findById submittedStoreA "sA").map
      (fun s => s.currentQuestionIndex) = some 1 := by decide

/-- C1, amended: for every stored session — in any state —
`submitResponse` appends one `response` turn carrying the current
question index and advances the question index by exactly one, leaving
everything else (status, skill scores, evaluation history) unchanged;
it performs no evaluation. -/
theorem submitResponse_appends_turn_and_advances_only
    (store : SessionStore) (sid response : String) (now : Nat)
    (session : InterviewSession) (h : findById store sid = some session) :
    ∃ store2, submitResponse store sid response now = Except.ok store2 ∧
      findById store2 sid = some { session with
        conversationHistory := session.conversationHistory ++
          [responseTurn session.currentQuestionIndex response now]
        currentQuestionIndex := session.currentQuestionIndex + 1 } :=
  submitResponse_spec store sid response now session h

/-- Witness for the amended C1 theorem at a concrete store. -/
theorem submitResponse_appends_turn_and_advances_only_witness :
    ∃ store2, submitResponse activeStore "sA" "hello" 7 =
        Except.ok store2 ∧
      findById store2 "sA" = some { activeSession with
        conversationHistory := activeSession.conversationHistory ++
          [responseTurn activeSession.currentQuestionIndex "hello" 7]
        currentQuestionIndex := activeSession.currentQuestionIndex + 1 } :=
  submitResponse_appends_turn_and_advances_only activeStore "sA" "hello" 7
    activeSession (by decide)

/-- C2, counterexample: on a `paused` session, `pause` succeeds as a
silent no-op (the claim demands an `InvalidTransition` failure) and
`submitResponse` also succeeds (the claim demands failure). -/
theorem pause_on_paused_silent_noop_counterexample :
    pausedSession.status = InterviewStatus.paused ∧
    pauseSession pausedStore "s1" = Except.ok pausedStore ∧
    (submitResponse pausedStore "s1" "hello" 5).isOk = true := by decide

/-- C2, amended: no transition validates its source state and no
`InvalidTransition` error exists: for every stored session, in any
state, `pause` succeeds and writes `paused`, `resume` succeeds and
writes `active` (silent no-ops included), and `submitResponse`
succeeds; a transition fails only when the session id is absent. -/
theorem transitions_unconditional_no_invalid_transition
    (store : SessionStore) (sid response : String) (now : Nat)
    (s : InterviewSession) (h : findById store sid = some s) :
    (pauseSession store sid = Except.ok
        (updateById store sid (fun t => { t with status := .paused })) ∧
      findById (updateById store sid
        (fun t => { t with status := .paused })) sid =
        some { s with status := .paused }) ∧
    (resumeSession store sid = Except.ok
        (updateById store sid (fun t => { t with status := .active })) ∧
      findById (updateById store sid
        (fun t => { t with status := .active })) sid =
        some { s with status := .active }) ∧
    (submitResponse store sid response now).isOk = true := by
  refine ⟨⟨?_, ?_⟩, ⟨?_, ?_⟩, ?_⟩
  · unfold pauseSession repoUpdate
    rw [h]
    rfl
  · have hc := findById_updateById store sid
      (fun t => { t with status := .paused }) (fun _ => rfl)
    rw [hc, h]
    rfl
  · unfold resumeSession repoUpdate
    rw [h]
    rfl
  · have hc := findById_updateById store sid
      (fun t => { t with status := .active }) (fun _ => rfl)
    rw [hc, h]
    rfl
  · obtain ⟨st2, he, _⟩ := submitResponse_spec store sid response now s h
    rw [he]
    rfl

/-- Witness for the amended C2 theorem at the paused store. -/
theorem transitions_unconditional_witness :
    (pauseSession pausedStore "s1" = Except.ok
        (updateById pausedStore "s1"
          (fun t => { t with status := .paused })) ∧
      findById (updateById pausedStore "s1"
        (fun t => { t with status := .paused })) "s1" =
        some { pausedSession with status := .paused }) ∧
    (resumeSession pausedStore "s1" = Except.ok
        (updateById pausedStore "s1"
          (fun t => { t with status := .active })) ∧
      findById (updateById pausedStore "s1"
        (fun t => { t with status := .active })) "s1" =
        some { pausedSession with status := .active }) ∧
    (submitResponse pausedStore "s1" "x" 3).isOk = true :=
  transitions_unconditional_no_invalid_transition pausedStore "s1" "x" 3
    pausedSession (by decide)

/-- C10: `completeInterview` freezes the same fixed placeholder score
vector (75/80/70/75/70/80/60/65) into every stored session it
completes, independent of the conversation history and evaluation
results — so any two completed sessions carry identical final
scores. -/
theorem complete_interview_fixed_scores
    (store : SessionStore) (sid : String) (now : Nat)
    (s : InterviewSession) (h : findById store sid = some s) :
    ∃ store2, completeInterview store sid now = Except.ok store2 ∧
      findById store2 sid = some { s with
        status := .completed
        endTime := some now
        skillAssessment := finalScoresPlaceholder } ∧
      finalScoresPlaceholder =
        { overall := 75, basicFormulas := 80, dataManipulation := 70,
          pivotTables := 75, advancedFunctions := 70,
          dataVisualization := 80, macrosVBA := 60,
          dataModeling := 65 } := by
  unfold completeInterview
  rw [h]
  unfold completeSession repoUpdate
  rw [h]
  refine ⟨_, rfl, ?_, rfl⟩
  have hc := findById_updateById store sid
    (fun t => { t with
      status := .completed
      endTime := some now
      skillAssessment := finalScoresPlaceholder })
    (fun _ => rfl)
  rw [hc, h]
  rfl

/-- Witness for the C10 theorem at a concrete store. -/
theorem complete_interview_fixed_scores_witness :
    ∃ store2, completeInterview activeStore "sA" 42 = Except.ok store2 ∧
      findById store2 "sA" = some { activeSession with
        status := .completed
        endTime := some 42
        skillAssessment := finalScoresPlaceholder } ∧
      finalScoresPlaceholder =
        { overall := 75, basicFormulas := 80, dataManipulation := 70,
          pivotTables := 75, advancedFunctions := 70,
          dataVisualization := 80, macrosVBA := 60,
          dataModeling := 65 } :=
  complete_interview_fixed_scores activeStore "sA" 42 activeSession
    (by decide)

/-- C3, counterexample: the catalog's first SUM pattern carries the
associated score 100, the answer `"=SUM(A1:A10)"` matches exactly that
pattern, yet the evaluator returns the FIXED score 95 — not the
pattern's associated score.  (Confidence 0.9 and the absent AI call
hold as claimed.) -/
theorem exact_match_ignores_pattern_score_counterexample :
    (catalogSum.expectedAnswers.map (fun a => (a.pattern, a.score))).head? =
      some ("=SUM(A1:A10)", 100) ∧
    sumQuestion.expectedAnswerPatterns.find?
      (fun p => jsIncludes (jsTrim (jsToLower "=SUM(A1:A10)"))
        (jsToLower p)) = some "=SUM(A1:A10)" ∧
    evaluateResponse aiStub sumQuestion "=SUM(A1:A10)" demoContext =
      (exactMatchResult sumQuestion "=SUM(A1:A10)", false) ∧
    (exactMatchResult sumQuestion "=SUM(A1:A10)").score = 95 ∧
    (exactMatchResult sumQuestion "=SUM(A1:A10)").confidence = 9/10 := by
  decide

/-- C3, amended: whenever the normalized answer contains an expected
pattern (first such pattern `pat`), `evaluateResponse` returns
immediately with the FIXED score 95 (regardless of any catalog score
associated with the pattern) and confidence 0.9 (> 0.8), without
invoking the AI tier. -/
theorem exact_match_fixed_95_no_ai (aiEval : AiJudge)
    (question : Question) (response : String)
    (context : InterviewContext) (pat : String)
    (h : question.expectedAnswerPatterns.find?
      (fun p => jsIncludes (jsTrim (jsToLower response)) (jsToLower p)) =
      some pat) :
    evaluateResponse aiEval question response context =
      (exactMatchResult question pat, false) ∧
    (exactMatchResult question pat).score = 95 ∧
    (exactMatchResult question pat).confidence = 9/10 := by
  have hrule : tryRuleBasedEvaluation question response =
      some (exactMatchResult question pat) := by
    unfold tryRuleBasedEvaluation
    rw [h]
  refine ⟨?_, rfl, rfl⟩
  unfold evaluateResponse
  rw [hrule]
  rfl

/-- Witness for the amended C3 theorem on the SUM question. -/
theorem exact_match_fixed_95_no_ai_witness :
    evaluateResponse aiStub sumQuestion "=SUM(A1:A10)" demoContext =
      (exactMatchResult sumQuestion "=SUM(A1:A10)", false) ∧
    (exactMatchResult sumQuestion "=SUM(A1:A10)").score = 95 ∧
    (exactMatchResult sumQuestion "=SUM(A1:A10)").confidence = 9/10 :=
  exact_match_fixed_95_no_ai aiStub sumQuestion "=SUM(A1:A10)"
    demoContext "=SUM(A1:A10)" (by decide)

/-- C4: an evaluation whose originating question is a `pivot_tables`
question is grouped under `basic_formulas` by the placeholder
`extractCategoryFromEvaluation`, so the recomputed scores read
`pivotTables = 0` and `basicFormulas = 80` — the claim (group by the
originating question's category) requires `pivotTables = 80`. -/
theorem skill_scores_placeholder_category_bug :
    pivotQuestion.category = ExcelSkillCategory.pivot_tables ∧
    pivotEvaluation.questionId = pivotQuestion.id ∧
    extractCategoryFromEvaluation pivotEvaluation =
      ExcelSkillCategory.basic_formulas ∧
    (calculateSkillScores [pivotEvaluation]).pivotTables = 0 ∧
    (calculateSkillScores [pivotEvaluation]).basicFormulas = 80 ∧
    (calculateSkillScores [pivotEvaluation]).overall = 80 := by decide

/-- C5: the difficulty adaptation is NOT a deterministic function of
the recorded evaluation history: `scoredSession` has one asked
basic-formulas question with recorded score 90 (which mandates
`advanced` under the claimed rule), yet the code draws
`Math.random() * 100` per recent question, returning `advanced` for a
stream drawing 90 and `basic` for a stream drawing 10. -/
theorem adapt_difficulty_random_placeholder_bug :
    (scoredSession.evaluationResults.map (fun e => e.score)) = [90] ∧
    adaptDifficulty (fun _ => 90) scoredSession
      ExcelSkillCategory.basic_formulas = SkillLevel.advanced ∧
    adaptDifficulty (fun _ => 10) scoredSession
      ExcelSkillCategory.basic_formulas = SkillLevel.basic := by decide

/-- C8, counterexample: an empty or whitespace-only answer yields no
rule-tier result against the SUM question, so `evaluateResponse`
invokes the AI tier (second component `true`) and returns the AI
verdict — the claim requires a lowest-tier short-circuit without any AI
call. -/
theorem empty_answer_invokes_ai_counterexample :
    tryRuleBasedEvaluation sumQuestion "   " = none ∧
    evaluateResponse aiStub sumQuestion "   " demoContext =
      (aiStubResult, true) ∧
    evaluateResponse aiStub sumQuestion "" demoContext =
      (aiStubResult, true) := by decide

/-- C8, amended: for every question whose patterns, mistake patterns
and credit conditions are all nonempty strings, an answer that
normalizes to the empty string produces NO rule-tier result, and
`evaluateResponse` forwards it to the AI tier, returning the AI verdict
with the invocation flag set. -/
theorem empty_answer_no_rule_tier_ai_invoked (aiEval : AiJudge)
    (question : Question) (response : String)
    (context : InterviewContext)
    (hempty : jsTrim (jsToLower response) = "")
    (hpat : ∀ p ∈ question.expectedAnswerPatterns, p ≠ "")
    (hmis : ∀ m ∈ question.evaluationCriteria.commonMistakes,
      m.pattern ≠ "")
    (hcred : ∀ r ∈ question.evaluationCriteria.partialCreditRules,
      r.condition ≠ "") :
    tryRuleBasedEvaluation question response = none ∧
    evaluateResponse aiEval question response context =
      (aiEval question response context, true) := by
  have hfind : question.expectedAnswerPatterns.find?
      (fun p => jsIncludes (jsTrim (jsToLower response)) (jsToLower p)) =
      none := by
    rw [List.find?_eq_none]
    intro p hp
    rw [hempty, jsIncludes_empty_of_ne p (hpat p hp)]
    simp
  have hf1 : question.evaluationCriteria.commonMistakes.filter
      (fun m => jsIncludes (jsTrim (jsToLower response))
        (jsToLower m.pattern)) = [] := by
    rw [List.filter_eq_nil_iff]
    intro m hm
    rw [hempty, jsIncludes_empty_of_ne m.pattern (hmis m hm)]
    simp
  have hf2 : question.evaluationCriteria.partialCreditRules.filter
      (fun r => jsIncludes (jsTrim (jsToLower response))
        (jsToLower r.condition)) = [] := by
    rw [List.filter_eq_nil_iff]
    intro r hr
    rw [hempty, jsIncludes_empty_of_ne r.condition (hcred r hr)]
    simp
  have hnone : tryRuleBasedEvaluation question response = none := by
    unfold tryRuleBasedEvaluation
    rw [hfind, hf1, hf2]
    rfl
  refine ⟨hnone, ?_⟩
  unfold evaluateResponse
  rw [hnone]

/-- Witness for the amended C8 theorem on the SUM question. -/
theorem empty_answer_no_rule_tier_ai_invoked_witness :
    tryRuleBasedEvaluation sumQuestion "   " = none ∧
    evaluateResponse aiStub sumQuestion "   " demoContext =
      (aiStub sumQuestion "   " demoContext, true) :=
  empty_answer_no_rule_tier_ai_invoked aiStub sumQuestion "   "
    demoContext (by decide) (by decide) (by decide) (by decide)

set_option maxRecDepth 4096 in
/-- C6, counterexample: in `allAskedSession` every catalog question has
already been asked, so the claim demands an `ExhaustionError`; instead
`getNextQuestion` succeeds, and the question it returns is one of the
already-asked ones (re-issued under a fresh id). -/
theorem exhaustion_never_fires_counterexample :
    ((excelQuestionsData.map (fun q => q.text)).all
      (fun t => ((getAskedQuestions allAskedSession).map
        (fun q => q.text)).contains t)) = true ∧
    (getNextQuestion demoEnv allAskedSession).isOk = true ∧
    ((getNextQuestion demoEnv allAskedSession).toOption.map (fun q =>
      ((getAskedQuestions allAskedSession).map
        (fun q2 => q2.text)).contains q.text)) = some true := by decide

set_option maxRecDepth 4096 in
/-- C6, amended: as long as the fresh-id supply never collides with an
already-asked question id (which `uuidv4` guarantees), `getNextQuestion`
ALWAYS succeeds on the eight-entry static catalog — the
`No more questions available` failure is unreachable however many
questions were already asked, because the fallback pool remaps the
whole catalog under fresh ids and the used-question filter never
removes anything; consequently already-asked questions can be drawn
again, and the category-ignoring-difficulty broadening tier of the
claim does not exist. -/
theorem next_question_succeeds_with_fresh_ids (env : EngineEnv)
    (session : InterviewSession)
    (fresh : ∀ n, (((getAskedQuestions session).map (fun q => q.id)).contains
      (env.uuid n)) = false) :
    (getNextQuestion env session).isOk = true := by
  have hfall : getFallbackQuestions env session =
      mapWithFreshIds env.uuid excelQuestionsData := by
    simp only [getFallbackQuestions]
    apply List.filter_eq_self.mpr
    intro q hq
    simp only [mapWithFreshIds, List.mem_map] at hq
    obtain ⟨p, hmem, rfl⟩ := hq
    rw [show (mapExcelQuestionToQuestion (env.uuid p.1) p.2).id =
      env.uuid p.1 from rfl]
    rw [fresh p.1]
    rfl
  have hne : (mapWithFreshIds env.uuid excelQuestionsData).isEmpty =
      false := rfl
  simp only [getNextQuestion]
  split
  · split
    · rename_i hemp
      rw [hfall, hne] at hemp
      exact Bool.noConfusion hemp
    · rename_i hemp
      obtain ⟨q, hq⟩ := selectQuestion_isOk
        (getFallbackQuestions env session) env.randIndexDraw
        (fun hn => hemp (by rw [hn]; rfl))
      rw [hq]
      rfl
  · rename_i hav
    obtain ⟨q, hq⟩ := selectQuestion_isOk
      (getAvailableQuestions env session
        (selectNextCategory session (validateQuestionCoverage session))
        (adaptDifficulty env.randomDraw session
          (selectNextCategory session (validateQuestionCoverage session))))
      env.randIndexDraw
      (fun hn => hav (by rw [hn]; rfl))
    rw [hq]
    rfl

/-- Witness for the amended C6 theorem: the all-asked session with the
constant fresh id still receives a question. -/
theorem next_question_succeeds_with_fresh_ids_witness :
    (getNextQuestion demoEnv allAskedSession).isOk = true :=
  next_question_succeeds_with_fresh_ids demoEnv allAskedSession
    (fun _ => by
      show (((getAskedQuestions allAskedSession).map
        (fun q => q.id)).contains "fresh-id") = false
      decide)

/-- C7, counterexample: the candidate `c1` has a session in the
`paused` state, yet `create` succeeds — only `active` sessions block
creation, contrary to the claim's "active or paused". -/
theorem paused_session_does_not_block_create_counterexample :
    pausedSession.candidateId = "c1" ∧
    pausedSession.status = InterviewStatus.paused ∧
    (createSession ["c1"] pausedStore "c1" SkillLevel.intermediate
      "s2" 10).isOk = true := by decide

/-- C7, amended: `create` fails whenever the candidate already has an
ACTIVE session (paused sessions do not block), and on success — valid
candidate id, existing candidate, no active session — it inserts a
fresh session in the `active` state with zeroed skill scores and empty
histories. -/
theorem create_blocks_only_active (candidates : List String)
    (store : SessionStore) (cid : String) (lvl : SkillLevel)
    (nid : String) (t0 : Nat) :
    (∀ s, findActiveByCandidateId store cid = some s →
      (createSession candidates store cid lvl nid t0).isOk = false) ∧
    (cid ≠ "" → candidates.contains cid = true →
      findActiveByCandidateId store cid = none →
      createSession candidates store cid lvl nid t0 =
        Except.ok (newSessionRow cid lvl nid t0,
          store ++ [newSessionRow cid lvl nid t0])) ∧
    (newSessionRow cid lvl nid t0).status = InterviewStatus.active ∧
    (newSessionRow cid lvl nid t0).skillAssessment = zeroSkillScores ∧
    (newSessionRow cid lvl nid t0).conversationHistory = [] ∧
    (newSessionRow cid lvl nid t0).evaluationResults = [] := by
  refine ⟨?_, ?_, rfl, rfl, rfl, rfl⟩
  · intro s hs
    unfold createSession
    by_cases h1 : (cid == "") = true
    · rw [if_pos h1]
      rfl
    · rw [if_neg h1]
      by_cases h2 : (candidates.contains cid) = true
      · have h2n : ¬((!(candidates.contains cid)) = true) := by
          rw [h2]
          exact Bool.noConfusion
        rw [if_neg h2n, hs]
        rfl
      · have h2y : ((!(candidates.contains cid)) = true) := by
          rw [Bool.eq_false_iff.mpr h2]
          rfl
        rw [if_pos h2y]
        rfl
  · intro h1 h2 h3
    unfold createSession
    have h1n : ¬((cid == "") = true) := fun hc => h1 (beq_iff_eq.mp hc)
    have h2n : ¬((!(candidates.contains cid)) = true) := by
      rw [h2]
      exact Bool.noConfusion
    rw [if_neg h1n, if_neg h2n, h3]

/-- Witness for the amended C7 theorem at concrete inputs. -/
theorem create_blocks_only_active_witness :
    createSession ["c9"] [] "c9" SkillLevel.basic "s-new" 0 =
      Except.ok (newSessionRow "c9" SkillLevel.basic "s-new" 0,
        [] ++ [newSessionRow "c9" SkillLevel.basic "s-new" 0]) :=
  (create_blocks_only_active ["c9"] [] "c9" SkillLevel.basic
    "s-new" 0).2.1 (by decide) (by decide) (by decide)

/-- C9, counterexample: a basic-role session that was asked thirty
basic-formulas questions (expected: six) has `overallCoverage = 2`,
outside `[0, 1]` — the overall average uses the UNCLAMPED per-category
ratio. -/
theorem overall_coverage_exceeds_one_counterexample :
    (validateQuestionCoverage overAskedSession).overallCoverage = 2 ∧
    (validateQuestionCoverage overAskedSession).overallCoverage > 1 := by
  decide

/-- The unclamped per-category ratio is nonnegative. -/
theorem categoryCoverageRaw_nonneg (session : InterviewSession)
    (category : ExcelSkillCategory) :
    0 ≤ categoryCoverageRaw session category := by
  simp only [categoryCoverageRaw]
  split
  · exact div_nonneg (Nat.cast_nonneg _) (Nat.cast_nonneg _)
  · exact le_refl 0

/-- C9, amended: every reported per-category coverage lies in `[0, 1]`
(it is `min(ratio, 1)` of a nonnegative ratio, `0` when `expected` is
zero), and `overallCoverage` is nonnegative — but it averages the
UNCLAMPED ratios, so it is not bounded by 1 (see the
counterexample). -/
theorem category_coverage_bounds_overall_nonneg
    (session : InterviewSession) :
    (∀ p ∈ (validateQuestionCoverage session).categories,
      0 ≤ p.2 ∧ p.2 ≤ 1) ∧
    0 ≤ (validateQuestionCoverage session).overallCoverage := by
  constructor
  · intro p hp
    simp only [validateQuestionCoverage, List.mem_map] at hp
    obtain ⟨e, he, rfl⟩ := hp
    exact ⟨le_min (categoryCoverageRaw_nonneg session e.1) zero_le_one,
      min_le_right _ _⟩
  · simp only [validateQuestionCoverage]
    split
    · rename_i hpos
      apply div_nonneg
      · apply foldl_add_nonneg _ _ (le_refl 0)
        intro x hx
        simp only [List.mem_map] at hx
        obtain ⟨e, he, rfl⟩ := hx
        exact mul_nonneg (categoryCoverageRaw_nonneg session e.1)
          (roleQuestionWeights_nonneg session.roleLevel e he)
      · exact le_of_lt hpos
    · exact le_refl 0

/-- Witness for the amended C9 theorem: the first reported category of
the over-asked session (clamped to exactly 1) and its overall
coverage. -/
theorem category_coverage_bounds_witness :
    (0 ≤ ((ExcelSkillCategory.basic_formulas, (1 : ℚ)) :
        ExcelSkillCategory × ℚ).2 ∧
      ((ExcelSkillCategory.basic_formulas, (1 : ℚ)) :
        ExcelSkillCategory × ℚ).2 ≤ 1) ∧
    0 ≤ (validateQuestionCoverage overAskedSession).overallCoverage :=
  ⟨(category_coverage_bounds_overall_nonneg overAskedSession).1
      (ExcelSkillCategory.basic_formulas, 1) (by decide),
    (category_coverage_bounds_overall_nonneg overAskedSession).2⟩

end ExcelInterviewer
